import Mathlib

/-!
Shallow embedding of the hospital API (src/main.py): an in-memory server
state (users, health metrics, doctors, appointments) and one Lean function
per HTTP handler. The external libraries bcrypt and PyJWT are not part of
the repository; they are modelled from the spec (sections 4.1 and 4.2).
-/

set_option autoImplicit false

/-- Modelled from the spec: a bcrypt hash value, carrying the salt it was
produced with and the resulting digest (spec 4.1, "salted one-way hash";
bcrypt is an external library, not repository code). -/
structure BcryptHash where
  salt : String
  digest : String
deriving DecidableEq, Repr

/-- Modelled from the spec: the bcrypt digest function, recomputable from the
password and the embedded salt (spec 4.1: "recomputes with the embedded salt
and compares"). -/
def bcrypt_digest (password salt : String) : String :=
  password ++ "#bcrypt#" ++ salt

/-- Embedding of `hash_password` (src/main.py line 46): `bcrypt.hashpw` with a
fresh random salt; the salt is passed explicitly here. -/
def hash_password (password salt : String) : BcryptHash :=
  ⟨salt, bcrypt_digest password salt⟩

/-- Embedding of `verify_password` (src/main.py line 43): `bcrypt.checkpw`
recomputes the digest with the hash's embedded salt and compares. -/
def verify_password (plain_password : String) (hashed_password : BcryptHash) : Bool :=
  bcrypt_digest plain_password hashed_password.salt == hashed_password.digest

/-- Modelled from the spec: a JWT as handled by PyJWT (external library).
`signed sub secret` is a well-formed HS256 token whose payload's optional
`sub` claim is `sub`, signed with `secret`; `malformed raw` stands for any
string that fails to parse or verify as a JWT at all (spec 4.2). -/
inductive Token where
  | signed (sub : Option String) (secret : String)
  | malformed (raw : String)
deriving DecidableEq, Repr

/-- The process-wide signing secret, `os.getenv("JWT_SECRET", "default_secret")`
(src/main.py line 30); the default fallback is used here. -/
def JWT_SECRET : String := "default_secret"

/-- Embedding of `create_access_token` (src/main.py line 40) at its single call
site: `jwt.encode({"sub": username}, JWT_SECRET, algorithm="HS256")`. -/
def create_access_token (sub : String) : Token :=
  Token.signed (some sub) JWT_SECRET

/-- Modelled from the spec: `jwt.decode(token, secret, algorithms=["HS256"])`
followed by `payload.get("sub")`. Returns `none` when parsing or signature
verification fails (PyJWTError), otherwise the payload's optional `sub`
claim (spec 4.2: "checks signature against the same secret and algorithm"). -/
def jwt_decode_sub (token : Token) (secret : String) : Option (Option String) :=
  match token with
  | Token.signed sub s => if s == secret then some sub else none
  | Token.malformed _ => none

/-- A stored user record (src/main.py line 71): the dict appended by
`register_user`, password field holding the bcrypt hash. -/
structure UserRec where
  id : Int
  username : String
  role : String
  password : BcryptHash
deriving DecidableEq, Repr

/-- The `User` response model (src/main.py lines 50-53): the public view
returned by `/register`; it has no password field. -/
structure PublicUser where
  id : Int
  username : String
  role : String
deriving DecidableEq, Repr

/-- The `HealthMetrics` model (src/main.py lines 60-64). -/
structure HealthMetrics where
  sleep : Int
  exercise : Int
  waterIntake : Int
  sex : Option String
deriving DecidableEq, Repr

/-- A doctor record (src/main.py lines 120-124). -/
structure Doctor where
  id : Int
  name : String
  specialty : String
deriving DecidableEq, Repr

/-- The `Appointment` request model (src/main.py lines 127-131); dates are
embedded as integers, ordered like `datetime`. -/
structure AppointmentReq where
  patient_id : Int
  doctor_id : Int
  date : Int
  reason : Option String
deriving DecidableEq, Repr

/-- A stored appointment (src/main.py lines 158-165): the dict appended by
`create_appointment`. -/
structure AppointmentRec where
  patient_id : Int
  doctor_id : Int
  date : Int
  reason : Option String
  doctor_name : String
  specialty : String
deriving DecidableEq, Repr

/-- The seeded doctors list (src/main.py lines 120-124), never mutated. -/
def initDoctors : List Doctor :=
  [⟨1, "Dr. Alice Smith", "Cardiology"⟩,
   ⟨2, "Dr. Bob Johnson", "Pediatrics"⟩,
   ⟨3, "Dr. Carol Williams", "Mental Health"⟩]

/-- The shared mutable module-level state: `users` (line 36), `health_metrics`
(line 37, a dict keyed by user id, embedded as an association list with
Python-dict get/assign semantics), `doctors` (line 120) and `appointments`
(line 125). -/
structure ServerState where
  users : List UserRec
  health_metrics : List (Int × HealthMetrics)
  doctors : List Doctor
  appointments : List AppointmentRec
deriving DecidableEq, Repr

/-- The state at process start. -/
def initState : ServerState :=
  ⟨[], [], initDoctors, []⟩

/-- Python `health_metrics.get(k)`: first (and, by the set discipline, only)
entry with key `k`. -/
def dictGet (m : List (Int × HealthMetrics)) (k : Int) : Option HealthMetrics :=
  (m.find? (fun p => p.1 == k)).map (fun p => p.2)

/-- Python `health_metrics[k] = v`: replace the entry in place if the key is
present, otherwise append it. -/
def dictSet (m : List (Int × HealthMetrics)) (k : Int) (v : HealthMetrics) :
    List (Int × HealthMetrics) :=
  if m.any (fun p => p.1 == k) then
    m.map (fun p => if p.1 == k then (k, v) else p)
  else
    m ++ [(k, v)]

/-- Linear scan `next((u for u in users if u["username"] == username), None)`
for a string `username` (src/main.py line 77 and each protected handler). -/
def find_user (users : List UserRec) (username : String) : Option UserRec :=
  users.find? (fun u => u.username == username)

/-- The same linear scan when `username = payload.get("sub")` may be `None`:
in Python `None` compares unequal to every stored username string. -/
def find_user_by_sub (users : List UserRec) (sub : Option String) : Option UserRec :=
  match sub with
  | none => none
  | some username => find_user users username

/-- An HTTPException surfaced to the client: status code and detail string. -/
structure ErrResp where
  status : Nat
  detail : String
deriving DecidableEq, Repr

/-- Embedding of `register_user`, POST /register (src/main.py lines 67-73).
It always succeeds: id is `len(users) + 1`, the record appended to the store
carries the bcrypt hash, and the response is the `User` public view (id,
username, role - no password field). `salt` is the fresh `bcrypt.gensalt()`. -/
def register_user (st : ServerState) (username password role : String)
    (salt : String) : ServerState × PublicUser :=
  let user_id : Int := (st.users.length : Int) + 1
  let hashed_password := hash_password password salt
  let new_user : UserRec := ⟨user_id, username, role, hashed_password⟩
  ({ st with users := st.users ++ [new_user] },
   ⟨new_user.id, new_user.username, new_user.role⟩)

/-- The body of the successful `/token` response (src/main.py line 85). -/
structure TokenResponse where
  access_token : Token
  token_type : String
deriving DecidableEq, Repr

/-- Embedding of `login_for_access_token`, POST /token (src/main.py
lines 75-85): linear scan for the username, 401 when absent or when password
verification fails, otherwise a token with `sub` bound to the stored
username. -/
def login_for_access_token (st : ServerState) (username password : String) :
    Except ErrResp TokenResponse :=
  match find_user st.users username with
  | none => Except.error ⟨401, "Incorrect username or password"⟩
  | some user =>
    if verify_password password user.password then
      Except.ok ⟨create_access_token user.username, "bearer"⟩
    else
      Except.error ⟨401, "Incorrect username or password"⟩

/-- Embedding of `get_dashboard`, GET /dashboard (src/main.py lines 88-99):
decode the token (403 on PyJWTError), resolve `sub` against the user store
(404 when absent), then read the user's metrics with the documented default. -/
def get_dashboard (st : ServerState) (token : Token) : Except ErrResp HealthMetrics :=
  match jwt_decode_sub token JWT_SECRET with
  | none => Except.error ⟨403, "Could not validate credentials"⟩
  | some username =>
    match find_user_by_sub st.users username with
    | none => Except.error ⟨404, "User not found"⟩
    | some user =>
      Except.ok ((dictGet st.health_metrics user.id).getD ⟨0, 0, 0, some "f/m"⟩)

/-- Embedding of `update_dashboard`, POST /dashboard/update (src/main.py
lines 101-112): same auth steps, then `health_metrics[user["id"]] =
health_data.dict()` and echo the input. -/
def update_dashboard (st : ServerState) (health_data : HealthMetrics)
    (token : Token) : ServerState × Except ErrResp HealthMetrics :=
  match jwt_decode_sub token JWT_SECRET with
  | none => (st, Except.error ⟨403, "Could not validate credentials"⟩)
  | some username =>
    match find_user_by_sub st.users username with
    | none => (st, Except.error ⟨404, "User not found"⟩)
    | some user =>
      ({ st with health_metrics := dictSet st.health_metrics user.id health_data },
       Except.ok health_data)

/-- The body of the successful `/appointments` response (src/main.py
line 167). -/
structure ApptResponse where
  message : String
  appointment : AppointmentRec
deriving DecidableEq, Repr

/-- Embedding of `create_appointment`, POST /appointments (src/main.py
lines 139-169): auth steps, then doctor lookup (404), then the strict
future-date check against `datetime.now()` (400), then append. The stored
`patient_id` is the authenticated user's id, not the request's. -/
def create_appointment (st : ServerState) (appointment : AppointmentReq)
    (token : Token) (now : Int) : ServerState × Except ErrResp ApptResponse :=
  match jwt_decode_sub token JWT_SECRET with
  | none => (st, Except.error ⟨403, "Could not validate credentials"⟩)
  | some username =>
    match find_user_by_sub st.users username with
    | none => (st, Except.error ⟨404, "User not found"⟩)
    | some user =>
      match st.doctors.find? (fun doc => doc.id == appointment.doctor_id) with
      | none => (st, Except.error ⟨404, "Doctor not found"⟩)
      | some doctor =>
        if appointment.date ≤ now then
          (st, Except.error ⟨400, "Appointment date must be in the future."⟩)
        else
          let new_appointment : AppointmentRec :=
            ⟨user.id, appointment.doctor_id, appointment.date,
             appointment.reason, doctor.name, doctor.specialty⟩
          ({ st with appointments := st.appointments ++ [new_appointment] },
           Except.ok ⟨"Appointment scheduled successfully", new_appointment⟩)

/-- The symptom-to-conditions table `SYMPTOM_CONDITIONS` (src/main.py
lines 175-182). -/
def SYMPTOM_CONDITIONS : List (String × List String) :=
  [("fever", ["Flu", "COVID-19", "Infection"]),
   ("cough", ["Flu", "COVID-19", "Cold"]),
   ("headache", ["Migraine", "Tension headache", "Sinusitis"]),
   ("sore throat", ["Cold", "Flu", "Strep throat"]),
   ("fatigue", ["Anemia", "Depression", "Chronic fatigue syndrome"]),
   ("stomach pain", ["bug, food posioning"])]

/-- Python `symptom in SYMPTOM_CONDITIONS` / `SYMPTOM_CONDITIONS[symptom]`. -/
def symptomLookup (s : String) : Option (List String) :=
  (SYMPTOM_CONDITIONS.find? (fun p => p.1 == s)).map (fun p => p.2)

/-- Python `matched_conditions.update(conds)` on a set represented as a
duplicate-free list: add each condition not already present. -/
def setUpdate (acc conds : List String) : List String :=
  conds.foldl (fun a c => if a.contains c then a else a ++ [c]) acc

/-- One iteration of the `check_symptoms` loop (src/main.py lines 194-196):
`if symptom in SYMPTOM_CONDITIONS: matched_conditions.update(...)`. -/
def collectStep (acc : List String) (s : String) : List String :=
  match symptomLookup s with
  | some conds => setUpdate acc conds
  | none => acc

/-- The accumulation loop of `check_symptoms` (src/main.py lines 193-196). -/
def collect_conditions (symptoms : List String) : List String :=
  symptoms.foldl collectStep []

/-- The two successful response shapes of `/symptom-checker` (src/main.py
lines 198-201). -/
inductive SymptomResponse where
  | matched (conditions : List String)
  | noMatch (message : String)
deriving DecidableEq, Repr

/-- Embedding of `check_symptoms`, POST /symptom-checker (src/main.py
lines 184-204): auth steps (note the 404 detail here is "User  not found",
with a doubled space, as in the source), then the union of condition lists
over recognised symptoms, or the no-match message when that union is empty. -/
def check_symptoms (st : ServerState) (symptoms : List String)
    (token : Token) : Except ErrResp SymptomResponse :=
  match jwt_decode_sub token JWT_SECRET with
  | none => Except.error ⟨403, "Could not validate credentials"⟩
  | some username =>
    match find_user_by_sub st.users username with
    | none => Except.error ⟨404, "User  not found"⟩
    | some _user =>
      let matched_conditions := collect_conditions symptoms
      if matched_conditions.isEmpty then
        Except.ok (SymptomResponse.noMatch
          "No matching conditions found for the provided symptoms.")
      else
        Except.ok (SymptomResponse.matched matched_conditions)

/-- The four-step auth gate as duplicated verbatim at every protected handler
(spec 4.3): verify the bearer token, then resolve its `sub` claim against the
credential store; `none` when either step fails. -/
def auth_gate (st : ServerState) (token : Token) : Option UserRec :=
  match jwt_decode_sub token JWT_SECRET with
  | none => none
  | some sub => find_user_by_sub st.users sub

deriving instance DecidableEq for Except

/-! Helper lemmas about the embedded dictionary and the symptom-set loop. -/

theorem list_find_map_replace (m : List (Int × HealthMetrics)) (k : Int)
    (v : HealthMetrics) :
    (m.map (fun p => if p.1 == k then (k, v) else p)).find? (fun p => p.1 == k) =
      if m.any (fun p => p.1 == k) then some (k, v) else none := by
  induction m with
  | nil => rfl
  | cons p ps ih =>
    by_cases hp : p.1 = k
    · have hfp : (if p.1 == k then ((k : Int), v) else p) = (k, v) := by simp [hp]
      rw [List.map_cons, hfp, List.find?_cons_of_pos _ (by simp), List.any_cons]
      simp [hp]
    · have hfp : (if p.1 == k then ((k : Int), v) else p) = p := by simp [hp]
      have hpk : (p.1 == k) = false := by simp [hp]
      rw [List.map_cons, hfp, List.find?_cons_of_neg _ (by simp [hp]), ih,
        List.any_cons, hpk, Bool.false_or]

theorem list_find_map_replace_ne (m : List (Int × HealthMetrics)) (k k' : Int)
    (v : HealthMetrics) (hne : k' ≠ k) :
    (m.map (fun p => if p.1 == k then (k, v) else p)).find? (fun p => p.1 == k') =
      m.find? (fun p => p.1 == k') := by
  induction m with
  | nil => rfl
  | cons p ps ih =>
    by_cases hp : p.1 = k
    · have hk : ¬((k : Int) = k') := fun h => hne h.symm
      have hp' : ¬(p.1 = k') := by rw [hp]; exact hk
      have hfp : (if p.1 == k then ((k : Int), v) else p) = (k, v) := by simp [hp]
      rw [List.map_cons, hfp, List.find?_cons_of_neg _ (by simp [hk]), ih,
        List.find?_cons_of_neg _ (by simp [hp'])]
    · have hfp : (if p.1 == k then ((k : Int), v) else p) = p := by simp [hp]
      by_cases hq : p.1 = k'
      · rw [List.map_cons, hfp, List.find?_cons_of_pos _ (by simp [hq]),
          List.find?_cons_of_pos _ (by simp [hq])]
      · rw [List.map_cons, hfp, List.find?_cons_of_neg _ (by simp [hq]), ih,
          List.find?_cons_of_neg _ (by simp [hq])]

theorem dictGet_dictSet_self (m : List (Int × HealthMetrics)) (k : Int)
    (v : HealthMetrics) : dictGet (dictSet m k v) k = some v := by
  unfold dictGet dictSet
  by_cases h : m.any (fun p => p.1 == k)
  · rw [if_pos h, list_find_map_replace, if_pos h]
    rfl
  · rw [if_neg h, List.find?_append]
    have hn : m.find? (fun p => p.1 == k) = none :=
      List.find?_eq_none.mpr fun x hx hpx => h (List.any_eq_true.mpr ⟨x, hx, hpx⟩)
    rw [hn]
    simp

theorem dictGet_dictSet_ne (m : List (Int × HealthMetrics)) (k k' : Int)
    (v : HealthMetrics) (hne : k' ≠ k) :
    dictGet (dictSet m k v) k' = dictGet m k' := by
  unfold dictGet dictSet
  by_cases h : m.any (fun p => p.1 == k)
  · rw [if_pos h, list_find_map_replace_ne m k k' v hne]
  · rw [if_neg h, List.find?_append]
    have hs : [((k : Int), v)].find? (fun p => p.1 == k') = none := by
      simp
      exact fun hh => hne hh.symm
    rw [hs]
    simp

theorem mem_setUpdate (c : String) (conds : List String) :
    ∀ acc, c ∈ setUpdate acc conds ↔ c ∈ acc ∨ c ∈ conds := by
  induction conds with
  | nil => intro acc; simp [setUpdate]
  | cons x xs ih =>
    intro acc
    show c ∈ setUpdate (if acc.contains x then acc else acc ++ [x]) xs ↔ _
    rw [ih]
    by_cases h : acc.contains x
    · have hx : x ∈ acc := by simpa using h
      simp only [if_pos h, List.mem_cons]
      constructor
      · rintro (hc | hc)
        · exact Or.inl hc
        · exact Or.inr (Or.inr hc)
      · rintro (hc | rfl | hc)
        · exact Or.inl hc
        · exact Or.inl hx
        · exact Or.inr hc
    · simp only [if_neg h, List.mem_append, List.mem_singleton, List.mem_cons]
      tauto

theorem collectStep_none (acc : List String) (s : String)
    (h : symptomLookup s = none) : collectStep acc s = acc := by
  unfold collectStep
  rw [h]

theorem collectStep_some (acc : List String) (s : String) (conds : List String)
    (h : symptomLookup s = some conds) : collectStep acc s = setUpdate acc conds := by
  unfold collectStep
  rw [h]

theorem mem_collect_aux (c : String) (symptoms : List String) :
    ∀ acc, c ∈ symptoms.foldl collectStep acc ↔
      c ∈ acc ∨ ∃ s ∈ symptoms, ∃ conds, symptomLookup s = some conds ∧ c ∈ conds := by
  induction symptoms with
  | nil => intro acc; simp
  | cons s ss ih =>
    intro acc
    rw [List.foldl_cons]
    cases h : symptomLookup s with
    | none =>
      rw [collectStep_none acc s h, ih]
      rw [List.exists_mem_cons_iff]
      constructor
      · rintro (hc | hc)
        · exact Or.inl hc
        · exact Or.inr (Or.inr hc)
      · rintro (hc | ⟨conds, hconds, _⟩ | hc)
        · exact Or.inl hc
        · exact absurd hconds (by simp [h])
        · exact Or.inr hc
    | some conds =>
      rw [collectStep_some acc s conds h, ih, mem_setUpdate,
        List.exists_mem_cons_iff]
      constructor
      · rintro ((hc | hc) | hc)
        · exact Or.inl hc
        · exact Or.inr (Or.inl ⟨conds, h, hc⟩)
        · exact Or.inr (Or.inr hc)
      · rintro (hc | ⟨conds', hconds', hc⟩ | hc)
        · exact Or.inl (Or.inl hc)
        · rw [h] at hconds'
          cases hconds'
          exact Or.inl (Or.inr hc)
        · exact Or.inr hc

theorem mem_collect_conditions (c : String) (symptoms : List String) :
    c ∈ collect_conditions symptoms ↔
      ∃ s ∈ symptoms, ∃ conds, symptomLookup s = some conds ∧ c ∈ conds := by
  unfold collect_conditions
  rw [mem_collect_aux]
  simp

/-! Concrete fixtures used by witnesses. -/

/-- A registered user, as `register_user` would store it. -/
def aliceUser : UserRec := ⟨1, "alice", "patient", hash_password "pw123" "saltA"⟩

/-- A second registered user. -/
def bobUser : UserRec := ⟨2, "bob", "doctor", hash_password "pw456" "saltB"⟩

/-- A store holding only alice, with no metrics or appointments yet. -/
def stAlice : ServerState := ⟨[aliceUser], [], initDoctors, []⟩

/-- A store holding alice and bob, where bob already has metrics. -/
def stAliceBob : ServerState :=
  ⟨[aliceUser, bobUser], [(2, ⟨8, 15, 1500, none⟩)], initDoctors, []⟩

/-- The token `/token` issues for alice. -/
def tokAlice : Token := Token.signed (some "alice") JWT_SECRET

/-- C4: POST /register always succeeds for every store state and every
username, password and role (its result type has no error case): it assigns
id = current user count + 1, appends the new record carrying the password
hash to the store, and returns only id, username and role - the response
type `PublicUser` has no password field. From the empty store, sequential
registrations receive ids 1 and 2. -/
theorem register_always_succeeds_count_id (st : ServerState)
    (username password role salt salt2 : String) :
    (register_user st username password role salt).2 =
      ⟨(st.users.length : Int) + 1, username, role⟩ ∧
    (register_user st username password role salt).1 =
      { st with users := st.users ++
          [⟨(st.users.length : Int) + 1, username, role,
            hash_password password salt⟩] } ∧
    (register_user initState "alice" "pw123" "patient" salt).2.id = 1 ∧
    (register_user (register_user initState "alice" "pw123" "patient" salt).1
        "bob" "pw456" "doctor" salt2).2.id = 2 :=
  ⟨rfl, rfl, rfl, rfl⟩

/-- C3: POST /token fails with 401 "Incorrect username or password" exactly
when no stored user has the given username or password verification against
the first matching user's hash fails; otherwise it returns the signed token
whose sole claim is sub = that username, with token_type "bearer". -/
theorem login_error_iff_and_success (st : ServerState) (username password : String) :
    (login_for_access_token st username password =
        Except.error ⟨401, "Incorrect username or password"⟩ ↔
      find_user st.users username = none ∨
        ∃ u, find_user st.users username = some u ∧
          verify_password password u.password = false) ∧
    (∀ u, find_user st.users username = some u →
      verify_password password u.password = true →
      login_for_access_token st username password =
        Except.ok ⟨Token.signed (some username) JWT_SECRET, "bearer"⟩) := by
  constructor
  · unfold login_for_access_token
    cases hf : find_user st.users username with
    | none => simp
    | some u =>
      by_cases hv : verify_password password u.password
      · simp [hv]
      · simp [hv]
  · intro u hf hv
    have hf' : st.users.find? (fun w => w.username == username) = some u := hf
    have hbeq := List.find?_some hf'
    have hu : u.username = username := eq_of_beq hbeq
    unfold login_for_access_token
    rw [hf]
    simp [hv, create_access_token, hu]

/-- Witness for C3: in a store holding alice with the hash of "pw123",
logging in as alice with "pw123" yields alice's bearer token. -/
theorem login_error_iff_and_success_witness :
    login_for_access_token stAlice "alice" "pw123" =
      Except.ok ⟨Token.signed (some "alice") JWT_SECRET, "bearer"⟩ :=
  (login_error_iff_and_success stAlice "alice" "pw123").2 aliceUser (by rfl) (by rfl)

/-- C6: a request that ends in an error leaves the shared state unchanged.
The two handlers that write state are POST /dashboard/update and
POST /appointments; every other handler is read-only by construction in this
embedding (its type does not return a state), so each request either fully
succeeds or fails with no side effects. -/
theorem error_requests_preserve_state (st : ServerState) (hd : HealthMetrics)
    (appt : AppointmentReq) (token : Token) (now : Int) :
    (∀ st2 e, update_dashboard st hd token = (st2, Except.error e) → st2 = st) ∧
    (∀ st2 e, create_appointment st appt token now = (st2, Except.error e) →
      st2 = st) := by
  constructor
  · intro st2 e h
    unfold update_dashboard at h
    repeat' split at h
    all_goals injection h with h1 h2
    all_goals first
      | exact h1.symm
      | exact absurd h2 (by simp)
  · intro st2 e h
    unfold create_appointment at h
    repeat' split at h
    all_goals injection h with h1 h2
    all_goals first
      | exact h1.symm
      | exact absurd h2 (by simp)

/-- Witness for C6: an update with an unverifiable token fails with 403 and
leaves the state exactly as it was. -/
theorem error_requests_preserve_state_witness :
    update_dashboard stAlice ⟨7, 30, 2000, none⟩ (Token.malformed "x") =
      ((update_dashboard stAlice ⟨7, 30, 2000, none⟩ (Token.malformed "x")).1,
        Except.error ⟨403, "Could not validate credentials"⟩) ∧
    (update_dashboard stAlice ⟨7, 30, 2000, none⟩ (Token.malformed "x")).1 =
      stAlice :=
  ⟨rfl,
    (error_requests_preserve_state stAlice ⟨7, 30, 2000, none⟩
        ⟨0, 0, 0, none⟩ (Token.malformed "x") 0).1
      (update_dashboard stAlice ⟨7, 30, 2000, none⟩ (Token.malformed "x")).1
      ⟨403, "Could not validate credentials"⟩ rfl⟩

/-- Counterexample for C1: usernames are not unique, and login scans for the
FIRST user with the given username. With "alice" already registered under
password "pw1", registering ("alice", "pw2", "doctor") and then logging in
with exactly those credentials fails with 401, because the password "pw2" is
verified against the first alice's stored hash of "pw1". -/
theorem register_then_login_duplicate_username_cex :
    login_for_access_token
        (register_user (register_user initState "alice" "pw1" "patient" "sA").1
            "alice" "pw2" "doctor" "sB").1
        "alice" "pw2" =
      Except.error ⟨401, "Incorrect username or password"⟩ := by
  rfl

/-- C1 (amended): provided no user with the given username is stored yet,
registering (username, password, role) and then logging in via POST /token
with the same username and password yields a token that the Auth Gate (the
four-step check run by every protected endpoint) resolves back to a user
record with exactly that username and role. -/
theorem register_then_login_gate_roundtrip (st : ServerState)
    (username password role salt : String)
    (hfresh : find_user st.users username = none) :
    login_for_access_token (register_user st username password role salt).1
        username password =
      Except.ok ⟨Token.signed (some username) JWT_SECRET, "bearer"⟩ ∧
    ∃ u : UserRec,
      auth_gate (register_user st username password role salt).1
          (Token.signed (some username) JWT_SECRET) = some u ∧
      u.username = username ∧ u.role = role := by
  have hfind : find_user (register_user st username password role salt).1.users
      username =
      some ⟨(st.users.length : Int) + 1, username, role,
        hash_password password salt⟩ := by
    show List.find? (fun u => u.username == username)
        (st.users ++ [⟨(st.users.length : Int) + 1, username, role,
          hash_password password salt⟩]) = _
    rw [List.find?_append]
    have hnone : List.find? (fun u => u.username == username) st.users = none :=
      hfresh
    rw [hnone, Option.none_or]
    exact List.find?_cons_of_pos _ (by simp)
  constructor
  · unfold login_for_access_token
    rw [hfind]
    simp [verify_password, hash_password, create_access_token]
  · refine ⟨⟨(st.users.length : Int) + 1, username, role,
      hash_password password salt⟩, ?_, rfl, rfl⟩
    unfold auth_gate
    have hdec : jwt_decode_sub (Token.signed (some username) JWT_SECRET)
        JWT_SECRET = some (some username) := by simp [jwt_decode_sub]
    rw [hdec]
    simp [find_user_by_sub, hfind]

/-- Witness for C1 (amended): registering alice in the empty store and logging
in as alice yields a token the gate resolves to alice the patient. -/
theorem register_then_login_gate_roundtrip_witness :
    login_for_access_token
        (register_user initState "alice" "pw123" "patient" "saltA").1
        "alice" "pw123" =
      Except.ok ⟨Token.signed (some "alice") JWT_SECRET, "bearer"⟩ ∧
    ∃ u : UserRec,
      auth_gate (register_user initState "alice" "pw123" "patient" "saltA").1
          (Token.signed (some "alice") JWT_SECRET) = some u ∧
      u.username = "alice" ∧ u.role = "patient" :=
  register_then_login_gate_roundtrip initState "alice" "pw123" "patient" "saltA"
    (by rfl)

/-- Counterexample for C2: the four protected endpoints do not perform the
check identically at the response level - for the same state and token, the
user-not-found detail is "User not found" at GET /dashboard but
"User  not found" (doubled space) at POST /symptom-checker. -/
theorem auth_gate_not_identical_cex :
    get_dashboard stAlice (Token.signed (some "bob") JWT_SECRET) =
        Except.error ⟨404, "User not found"⟩ ∧
    check_symptoms stAlice [] (Token.signed (some "bob") JWT_SECRET) =
        Except.error ⟨404, "User  not found"⟩ ∧
    (ErrResp.mk 404 "User not found") ≠ ⟨404, "User  not found"⟩ :=
  ⟨rfl, rfl, by decide⟩

/-- C2 (amended): at every protected endpoint, a request whose bearer token
fails verification is rejected with 403 "Could not validate credentials", and
a request whose verified token's sub claim matches no stored username is
rejected with 404; the four-step check behaves identically at all four
endpoints except that the 404 detail is "User not found" at /dashboard,
/dashboard/update and /appointments but "User  not found" (doubled space) at
/symptom-checker. -/
theorem auth_gate_uniform_up_to_detail (st : ServerState) (hd : HealthMetrics)
    (appt : AppointmentReq) (now : Int) (symptoms : List String)
    (token : Token) :
    (jwt_decode_sub token JWT_SECRET = none →
      get_dashboard st token =
          Except.error ⟨403, "Could not validate credentials"⟩ ∧
      (update_dashboard st hd token).2 =
          Except.error ⟨403, "Could not validate credentials"⟩ ∧
      (create_appointment st appt token now).2 =
          Except.error ⟨403, "Could not validate credentials"⟩ ∧
      check_symptoms st symptoms token =
          Except.error ⟨403, "Could not validate credentials"⟩) ∧
    (∀ sub, jwt_decode_sub token JWT_SECRET = some sub →
      find_user_by_sub st.users sub = none →
      get_dashboard st token = Except.error ⟨404, "User not found"⟩ ∧
      (update_dashboard st hd token).2 =
          Except.error ⟨404, "User not found"⟩ ∧
      (create_appointment st appt token now).2 =
          Except.error ⟨404, "User not found"⟩ ∧
      check_symptoms st symptoms token =
          Except.error ⟨404, "User  not found"⟩) := by
  constructor
  · intro h
    refine ⟨?_, ?_, ?_, ?_⟩
    · simp [get_dashboard, h]
    · simp [update_dashboard, h]
    · simp [create_appointment, h]
    · simp [check_symptoms, h]
  · intro sub hdec huser
    refine ⟨?_, ?_, ?_, ?_⟩
    · simp [get_dashboard, hdec, huser]
    · simp [update_dashboard, hdec, huser]
    · simp [create_appointment, hdec, huser]
    · simp [check_symptoms, hdec, huser]

/-- Witness for C2 (amended): a malformed token gets 403 at GET /dashboard,
and a valid token for an unknown user gets 404 at POST /appointments. -/
theorem auth_gate_uniform_up_to_detail_witness :
    get_dashboard stAlice (Token.malformed "x") =
        Except.error ⟨403, "Could not validate credentials"⟩ ∧
    (create_appointment stAlice ⟨1, 1, 50, none⟩
        (Token.signed (some "carol") JWT_SECRET) 10).2 =
      Except.error ⟨404, "User not found"⟩ :=
  ⟨((auth_gate_uniform_up_to_detail stAlice ⟨0, 0, 0, none⟩ ⟨1, 1, 50, none⟩ 10
      [] (Token.malformed "x")).1 rfl).1,
    (((auth_gate_uniform_up_to_detail stAlice ⟨0, 0, 0, none⟩ ⟨1, 1, 50, none⟩ 10
        [] (Token.signed (some "carol") JWT_SECRET)).2 (some "carol") rfl
      rfl).2.2).1⟩

/-- C5: for an authenticated POST /appointments, a doctor_id matching no
stored doctor is rejected with 404 "Doctor not found"; with a matching
doctor, a date at or before the current time is rejected with 400
"Appointment date must be in the future.", and a strictly future date
succeeds, storing (and returning) an appointment whose doctor_name and
specialty are exactly those of the doctor record with that id. -/
theorem create_appointment_doctor_and_date (st : ServerState)
    (appt : AppointmentReq) (token : Token) (now : Int) (sub : Option String)
    (user : UserRec)
    (hdec : jwt_decode_sub token JWT_SECRET = some sub)
    (hfind : find_user_by_sub st.users sub = some user) :
    (st.doctors.find? (fun doc => doc.id == appt.doctor_id) = none →
      create_appointment st appt token now =
        (st, Except.error ⟨404, "Doctor not found"⟩)) ∧
    ∀ doctor,
      st.doctors.find? (fun doc => doc.id == appt.doctor_id) = some doctor →
      (appt.date ≤ now →
        create_appointment st appt token now =
          (st, Except.error ⟨400, "Appointment date must be in the future."⟩)) ∧
      (now < appt.date →
        create_appointment st appt token now =
          ({ st with appointments := st.appointments ++
              [⟨user.id, appt.doctor_id, appt.date, appt.reason,
                doctor.name, doctor.specialty⟩] },
            Except.ok ⟨"Appointment scheduled successfully",
              ⟨user.id, appt.doctor_id, appt.date, appt.reason,
                doctor.name, doctor.specialty⟩⟩)) := by
  constructor
  · intro hdoc
    simp [create_appointment, hdec, hfind, hdoc]
  · intro doctor hdoc
    constructor
    · intro hdate
      simp [create_appointment, hdec, hfind, hdoc, hdate]
    · intro hdate
      have hnle : ¬(appt.date ≤ now) := not_le.mpr hdate
      simp [create_appointment, hdec, hfind, hdoc, hnle]

/-- Witness for C5: booking doctor 1 for date 50 fails with 400 when now is
100, and succeeds when now is 10, storing Dr. Alice Smith / Cardiology. -/
theorem create_appointment_doctor_and_date_witness :
    create_appointment stAlice ⟨5, 1, 50, none⟩ tokAlice 100 =
      (stAlice, Except.error ⟨400, "Appointment date must be in the future."⟩) ∧
    create_appointment stAlice ⟨5, 1, 50, none⟩ tokAlice 10 =
      ({ stAlice with appointments := stAlice.appointments ++
          [⟨1, 1, 50, none, "Dr. Alice Smith", "Cardiology"⟩] },
        Except.ok ⟨"Appointment scheduled successfully",
          ⟨1, 1, 50, none, "Dr. Alice Smith", "Cardiology"⟩⟩) :=
  ⟨((create_appointment_doctor_and_date stAlice ⟨5, 1, 50, none⟩ tokAlice 100
        (some "alice") aliceUser rfl rfl).2
      ⟨1, "Dr. Alice Smith", "Cardiology"⟩ rfl).1 (by decide),
    ((create_appointment_doctor_and_date stAlice ⟨5, 1, 50, none⟩ tokAlice 10
        (some "alice") aliceUser rfl rfl).2
      ⟨1, "Dr. Alice Smith", "Cardiology"⟩ rfl).2 (by decide)⟩

/-- C7: for an authenticated user, GET /dashboard before that user's first
update returns the default metrics (sleep 0, exercise 0, waterIntake 0,
sex "f/m"), and after POST /dashboard/update with any payload a subsequent
GET /dashboard for the same user returns exactly that payload (the update
response also echoes it). -/
theorem dashboard_default_then_update_read (st : ServerState) (token : Token)
    (sub : Option String) (user : UserRec)
    (hdec : jwt_decode_sub token JWT_SECRET = some sub)
    (hfind : find_user_by_sub st.users sub = some user) :
    (dictGet st.health_metrics user.id = none →
      get_dashboard st token = Except.ok ⟨0, 0, 0, some "f/m"⟩) ∧
    ∀ payload : HealthMetrics,
      (update_dashboard st payload token).2 = Except.ok payload ∧
      get_dashboard (update_dashboard st payload token).1 token =
        Except.ok payload := by
  constructor
  · intro hmiss
    simp [get_dashboard, hdec, hfind, hmiss]
  · intro payload
    have hst : update_dashboard st payload token =
        ({ st with health_metrics := dictSet st.health_metrics user.id payload },
          Except.ok payload) := by
      simp [update_dashboard, hdec, hfind]
    refine ⟨by rw [hst], ?_⟩
    rw [hst]
    simp [get_dashboard, hdec, hfind, dictGet_dictSet_self]

/-- Witness for C7: alice's first read returns the defaults; after updating
with (7, 30, 2000), a read returns exactly (7, 30, 2000). -/
theorem dashboard_default_then_update_read_witness :
    get_dashboard stAlice tokAlice = Except.ok ⟨0, 0, 0, some "f/m"⟩ ∧
    (update_dashboard stAlice ⟨7, 30, 2000, none⟩ tokAlice).2 =
      Except.ok ⟨7, 30, 2000, none⟩ ∧
    get_dashboard (update_dashboard stAlice ⟨7, 30, 2000, none⟩ tokAlice).1
      tokAlice = Except.ok ⟨7, 30, 2000, none⟩ :=
  ⟨(dashboard_default_then_update_read stAlice tokAlice (some "alice")
      aliceUser rfl rfl).1 rfl,
    ((dashboard_default_then_update_read stAlice tokAlice (some "alice")
        aliceUser rfl rfl).2 ⟨7, 30, 2000, none⟩).1,
    ((dashboard_default_then_update_read stAlice tokAlice (some "alice")
        aliceUser rfl rfl).2 ⟨7, 30, 2000, none⟩).2⟩

/-- C8: for an authenticated POST /symptom-checker, a condition appears in
the matched_conditions response exactly when some submitted symptom is a key
of the symptom table whose condition list contains it; ["fever", "cough"]
yields at least "Flu" and "COVID-19", and ["unknown_symptom"] yields the
no-match message instead. -/
theorem check_symptoms_union (st : ServerState) (token : Token)
    (sub : Option String) (user : UserRec)
    (hdec : jwt_decode_sub token JWT_SECRET = some sub)
    (hfind : find_user_by_sub st.users sub = some user) :
    (∀ symptoms c,
      (∃ cs, check_symptoms st symptoms token =
          Except.ok (SymptomResponse.matched cs) ∧ c ∈ cs) ↔
        ∃ s ∈ symptoms, ∃ conds, symptomLookup s = some conds ∧ c ∈ conds) ∧
    (∃ cs, check_symptoms st ["fever", "cough"] token =
        Except.ok (SymptomResponse.matched cs) ∧
      "Flu" ∈ cs ∧ "COVID-19" ∈ cs) ∧
    check_symptoms st ["unknown_symptom"] token =
      Except.ok (SymptomResponse.noMatch
        "No matching conditions found for the provided symptoms.") := by
  have hrun : ∀ symptoms, check_symptoms st symptoms token =
      if (collect_conditions symptoms).isEmpty then
        Except.ok (SymptomResponse.noMatch
          "No matching conditions found for the provided symptoms.")
      else Except.ok (SymptomResponse.matched (collect_conditions symptoms)) := by
    intro symptoms
    simp [check_symptoms, hdec, hfind]
  refine ⟨?_, ?_, ?_⟩
  · intro symptoms c
    rw [hrun]
    by_cases hE : (collect_conditions symptoms).isEmpty
    · rw [if_pos hE]
      constructor
      · rintro ⟨cs, hcs, _⟩
        exact absurd hcs (by simp)
      · rintro ⟨s, hs, conds, hconds, hc⟩
        have hmem : c ∈ collect_conditions symptoms :=
          (mem_collect_conditions c symptoms).mpr ⟨s, hs, conds, hconds, hc⟩
        rw [List.isEmpty_iff] at hE
        rw [hE] at hmem
        exact absurd hmem (List.not_mem_nil c)
    · rw [if_neg hE]
      constructor
      · rintro ⟨cs, hcs, hc⟩
        have hcseq : collect_conditions symptoms = cs := by
          simpa using hcs
        rw [← hcseq] at hc
        exact (mem_collect_conditions c symptoms).mp hc
      · intro hex
        exact ⟨collect_conditions symptoms, rfl,
          (mem_collect_conditions c symptoms).mpr hex⟩
  · refine ⟨collect_conditions ["fever", "cough"], ?_, ?_, ?_⟩
    · rw [hrun]
      exact if_neg (by decide)
    · decide
    · decide
  · rw [hrun]
    rfl

/-- Witness for C8: alice's symptom check for ["fever", "cough"] matches Flu
and COVID-19, and ["unknown_symptom"] returns the no-match message. -/
theorem check_symptoms_union_witness :
    (∃ cs, check_symptoms stAlice ["fever", "cough"] tokAlice =
        Except.ok (SymptomResponse.matched cs) ∧
      "Flu" ∈ cs ∧ "COVID-19" ∈ cs) ∧
    check_symptoms stAlice ["unknown_symptom"] tokAlice =
      Except.ok (SymptomResponse.noMatch
        "No matching conditions found for the provided symptoms.") :=
  ⟨(check_symptoms_union stAlice tokAlice (some "alice") aliceUser
      rfl rfl).2.1,
    (check_symptoms_union stAlice tokAlice (some "alice") aliceUser
      rfl rfl).2.2⟩

/-- C9: a successful POST /appointments stores (and echoes) as patient_id the
id of the user authenticated by the token, and the request body's patient_id
is ignored entirely: changing it changes neither the resulting state nor the
response. -/
theorem appointment_patient_id_from_token (st : ServerState)
    (appt : AppointmentReq) (token : Token) (now : Int) (sub : Option String)
    (user : UserRec)
    (hdec : jwt_decode_sub token JWT_SECRET = some sub)
    (hfind : find_user_by_sub st.users sub = some user) :
    (∀ st2 resp, create_appointment st appt token now = (st2, Except.ok resp) →
      resp.appointment.patient_id = user.id ∧
      st2 = { st with appointments := st.appointments ++ [resp.appointment] }) ∧
    ∀ pid, create_appointment st { appt with patient_id := pid } token now =
      create_appointment st appt token now := by
  constructor
  · intro st2 resp h
    simp only [create_appointment, hdec, hfind] at h
    split at h
    · exact absurd h (by simp)
    · split at h
      · exact absurd h (by simp)
      · injection h with h1 h2
        injection h2 with h3
        subst h3
        exact ⟨rfl, h1.symm⟩
  · intro pid
    cases appt with
    | mk a b c d => rfl

/-- Witness for C9: with alice's token, booking stores patient_id 1 (alice's
id) and request patient_id 99 and 77 produce identical results. -/
theorem appointment_patient_id_from_token_witness :
    (⟨"Appointment scheduled successfully",
        ⟨1, 1, 50, none, "Dr. Alice Smith", "Cardiology"⟩⟩ :
      ApptResponse).appointment.patient_id = aliceUser.id ∧
    create_appointment stAlice ⟨99, 1, 50, none⟩ tokAlice 10 =
      create_appointment stAlice ⟨77, 1, 50, none⟩ tokAlice 10 :=
  ⟨((appointment_patient_id_from_token stAlice ⟨99, 1, 50, none⟩ tokAlice 10
        (some "alice") aliceUser rfl rfl).1
      { stAlice with appointments := stAlice.appointments ++
          [⟨1, 1, 50, none, "Dr. Alice Smith", "Cardiology"⟩] }
      ⟨"Appointment scheduled successfully",
        ⟨1, 1, 50, none, "Dr. Alice Smith", "Cardiology"⟩⟩ rfl).1,
    (appointment_patient_id_from_token stAlice ⟨77, 1, 50, none⟩ tokAlice 10
        (some "alice") aliceUser rfl rfl).2 99⟩

/-- C10: a successful POST /dashboard/update only rewrites the metrics entry
of the authenticated user: the users list, the doctors list, the
appointments list and every other user's metrics entry are unchanged, and
the authenticated user's entry becomes exactly the submitted payload. -/
theorem update_dashboard_frame (st : ServerState) (hd : HealthMetrics)
    (token : Token) (sub : Option String) (user : UserRec)
    (hdec : jwt_decode_sub token JWT_SECRET = some sub)
    (hfind : find_user_by_sub st.users sub = some user) :
    (update_dashboard st hd token).1.users = st.users ∧
    (update_dashboard st hd token).1.doctors = st.doctors ∧
    (update_dashboard st hd token).1.appointments = st.appointments ∧
    dictGet (update_dashboard st hd token).1.health_metrics user.id = some hd ∧
    ∀ k, k ≠ user.id →
      dictGet (update_dashboard st hd token).1.health_metrics k =
        dictGet st.health_metrics k := by
  have hst : (update_dashboard st hd token).1 =
      { st with health_metrics := dictSet st.health_metrics user.id hd } := by
    simp [update_dashboard, hdec, hfind]
  rw [hst]
  exact ⟨rfl, rfl, rfl, dictGet_dictSet_self _ _ _,
    fun k hk => dictGet_dictSet_ne _ _ _ _ hk⟩

/-- Witness for C10: alice's update writes her entry and leaves bob's metrics
and the users list untouched. -/
theorem update_dashboard_frame_witness :
    dictGet (update_dashboard stAliceBob ⟨7, 30, 2000, none⟩ tokAlice).1.health_metrics
        1 = some ⟨7, 30, 2000, none⟩ ∧
    dictGet (update_dashboard stAliceBob ⟨7, 30, 2000, none⟩ tokAlice).1.health_metrics
        2 = dictGet stAliceBob.health_metrics 2 ∧
    (update_dashboard stAliceBob ⟨7, 30, 2000, none⟩ tokAlice).1.users =
      stAliceBob.users :=
  ⟨(update_dashboard_frame stAliceBob ⟨7, 30, 2000, none⟩ tokAlice
      (some "alice") aliceUser rfl rfl).2.2.2.1,
    (update_dashboard_frame stAliceBob ⟨7, 30, 2000, none⟩ tokAlice
      (some "alice") aliceUser rfl rfl).2.2.2.2 2 (by decide),
    (update_dashboard_frame stAliceBob ⟨7, 30, 2000, none⟩ tokAlice
      (some "alice") aliceUser rfl rfl).1⟩
